import Mathlib

/-!
Shallow embedding of the backend service in `main.py` / `schemas.py`
(FastAPI + pymongo glue for a materials company site): document
serialization, product listing filters, the two lead-capture handlers
(quote request, contact message), the best-effort SMTP helper, and the
fixed category list.  The document-store accessor (`database.py`) is not
among the sources; its two wrappers are modelled from the spec.
-/

namespace Spec2Proof

/-- JSON-ish / BSON-ish values stored in documents and returned in
responses.  `objectId` carries the 24-hex-character representation. -/
inductive Value where
  | str (s : String)
  | int (n : Int)
  | bool (b : Bool)
  | objectId (hex : String)
  | null
  | arr (xs : List Value)
  | obj (fields : List (String × Value))

/-- A document / Python dict: association list with (in practice) unique
string keys, first binding wins on lookup. -/
abbrev Doc : Type := List (String × Value)

/-- Python `str()` on the values of our universe (`str(ObjectId(h))` is the
hex string `h`). -/
def pyStr : Value → String
  | .str s => s
  | .int n => toString n
  | .bool b => if b then "True" else "False"
  | .objectId h => h
  | .null => "None"
  | .arr _ => "<list>"
  | .obj _ => "<dict>"

/-- Dict lookup (`d[k]` / `k in d`): first binding with the key. -/
def dictGet (d : Doc) (k : String) : Option Value :=
  match d with
  | [] => none
  | (k', v) :: rest => if k' == k then some v else dictGet rest k

/-- Dict `pop`: remove the bindings of the key. -/
def dictPop (d : Doc) (k : String) : Doc :=
  match d with
  | [] => []
  | (k', v) :: rest => if k' == k then dictPop rest k else (k', v) :: dictPop rest k

/-- Dict assignment `d[k] = v`: replace in place if the key is present,
append otherwise (Python dicts keep insertion order). -/
def dictSet (d : Doc) (k : String) (v : Value) : Doc :=
  match d with
  | [] => [(k, v)]
  | (k', v') :: rest => if k' == k then (k, v) :: dictPop rest k else (k', v') :: dictSet rest k v

/-- Function `serialize_doc` from `main.py`: copy the dict; if `_id` is present, pop
it and set `id` to its string form. -/
def serialize_doc (doc : Doc) : Doc :=
  match dictGet doc "_id" with
  | none => doc
  | some v => dictSet (dictPop doc "_id") "id" (.str (pyStr v))

/-! ## Python primitives: truthiness and `int()` parsing -/

/-- Truthiness of an `os.getenv` result / `Optional[str]` value: `None` and
the empty string are falsy. -/
def optTruthy : Option String → Bool
  | none => false
  | some s => s ≠ ""

/-- Python `x or '-'` on an optional string field. -/
def orDash : Option String → String
  | none => "-"
  | some s => if s = "" then "-" else s

def isDig (c : Char) : Bool := '0' ≤ c && c ≤ '9'

def digitVal (c : Char) : Nat := c.toNat - '0'.toNat

/-- Digits after the first, allowing single underscores between digits as
CPython does. -/
def moreDigits : List Char → Nat → Option Nat
  | [], acc => some acc
  | '_' :: c :: rest, acc =>
    if isDig c then moreDigits rest (acc * 10 + digitVal c) else none
  | c :: rest, acc => if isDig c then moreDigits rest (acc * 10 + digitVal c) else none

def parseUNat : List Char → Option Nat
  | [] => none
  | c :: rest => if isDig c then moreDigits rest (digitVal c) else none

def trimWs (cs : List Char) : List Char :=
  ((cs.dropWhile Char.isWhitespace).reverse.dropWhile Char.isWhitespace).reverse

/-- Python `int(s)` on a decimal string: strips surrounding whitespace,
optional sign, digits (underscore group separators allowed); `none` models
the `ValueError` raised otherwise. -/
def pyInt (s : String) : Option Int :=
  match trimWs s.data with
  | '+' :: rest => (parseUNat rest).map Int.ofNat
  | '-' :: rest => (parseUNat rest).map (fun n => -(n : Int))
  | rest => (parseUNat rest).map Int.ofNat

/-! ## Environment and the SMTP helper -/

/-- The environment variables read by `maybe_send_email`; `none` means the
variable is unset. -/
structure Env where
  smtpHost : Option String
  smtpPortVar : Option String
  smtpUser : Option String
  smtpPass : Option String
  emailTo : Option String
  emailFromVar : Option String

/-- Outcome of the SMTP dialogue in the `try` block (connect, optional
login, sendmail): either the server accepts the message or some step
raises. -/
inductive SmtpBehavior where
  | delivers
  | raises (msg : String)

structure EmailResult where
  sent : Bool
  detail : String

/-- Computation `email_from = os.getenv("EMAIL_FROM", smtp_user or "noreply@example.com")`. -/
def emailFromOf (env : Env) : String :=
  match env.emailFromVar with
  | some s => s
  | none =>
    match env.smtpUser with
    | some u => if u = "" then "noreply@example.com" else u
    | none => "noreply@example.com"

/-- Function `maybe_send_email` from `main.py`.  `Except.error` models an uncaught
exception: `int(os.getenv("SMTP_PORT", "0"))` runs before the `try` block,
so a non-integer `SMTP_PORT` propagates a `ValueError`.  Inside the `try`,
any SMTP failure is caught and reported in the result. -/
def maybe_send_email (env : Env) (smtp : SmtpBehavior) (subject body : String) :
    Except String EmailResult :=
  match pyInt (env.smtpPortVar.getD "0") with
  | none =>
    .error ("ValueError: invalid literal for int() with base 10: "
      ++ env.smtpPortVar.getD "0")
  | some portInt =>
    let smtp_port : Option Int := if portInt = 0 then none else some portInt
    if !(optTruthy env.smtpHost && smtp_port.isSome && optTruthy env.emailTo) then
      .ok ⟨false, "SMTP not configured; entry logged to database only."⟩
    else
      match smtp with
      | .delivers =>
        let _msgFrom := emailFromOf env
        let _msgBody := (subject, body)
        .ok ⟨true, "Email sent"⟩
      | .raises m => .ok ⟨false, "Email error: " ++ m⟩

/-- Predicate: `SMTP_PORT` (defaulted to `"0"`) parses as an integer, i.e. the call
`int(os.getenv("SMTP_PORT", "0"))` does not raise. -/
def portParses (env : Env) : Bool :=
  (pyInt (env.smtpPortVar.getD "0")).isSome

/-- The gate of the early `return`: host, nonzero port and recipient all
configured. -/
def smtpConfigured (env : Env) : Bool :=
  optTruthy env.smtpHost
    && (match pyInt (env.smtpPortVar.getD "0") with
        | some n => n != 0
        | none => false)
    && optTruthy env.emailTo

/-! ## Schemas (`schemas.py`) and payload validation -/

/-- Split a character list at every occurrence of a separator. -/
def splitOnChar (sep : Char) : List Char → List (List Char)
  | [] => [[]]
  | c :: rest =>
    if c == sep then [] :: splitOnChar sep rest
    else
      match splitOnChar sep rest with
      | p :: others => (c :: p) :: others
      | [] => [[c]]

/-- Model of the third-party `EmailStr` validator's syntactic check:
exactly one `@`, nonempty local part, nonempty dotted domain, no spaces. -/
def isValidEmail (s : String) : Bool :=
  match splitOnChar '@' s.data with
  | [loc, dom] => !loc.isEmpty && !dom.isEmpty && dom.contains '.' && !s.data.contains ' '
  | _ => false

/-- Schema `QuoteRequest` from `schemas.py`: `name` and `email` required,
the rest optional. -/
structure QuoteRequest where
  name : String
  company : Option String
  email : String
  phone : Option String
  message : Option String
  product : Option String

/-- Schema `ContactMessage` from `schemas.py`: like `QuoteRequest` but `message`
is required and `interest` replaces `product`. -/
structure ContactMessage where
  name : String
  company : Option String
  email : String
  phone : Option String
  message : String
  interest : Option String

/-- Validation of an `Optional[str] = None` field: absent or `null` is
`None`, a string is itself, any other value fails. -/
def parseOptStr (j : Doc) (k : String) : Option (Option String) :=
  match dictGet j k with
  | none => some none
  | some .null => some none
  | some (.str s) => some (some s)
  | some _ => none

/-- Validation of a required `str` field. -/
def parseReqStr (j : Doc) (k : String) : Option String :=
  match dictGet j k with
  | some (.str s) => some s
  | _ => none

/-- Pydantic validation of a `QuoteRequest` body (the framework runs it
before the handler): `none` is a 422 rejection. -/
def parseQuoteRequest (j : Doc) : Option QuoteRequest :=
  match parseReqStr j "name", parseReqStr j "email" with
  | some nm, some em =>
    if isValidEmail em then
      match parseOptStr j "company", parseOptStr j "phone",
            parseOptStr j "message", parseOptStr j "product" with
      | some co, some ph, some ms, some pr => some ⟨nm, co, em, ph, ms, pr⟩
      | _, _, _, _ => none
    else none
  | _, _ => none

/-- Pydantic validation of a `ContactMessage` body. -/
def parseContactMessage (j : Doc) : Option ContactMessage :=
  match parseReqStr j "name", parseReqStr j "email", parseReqStr j "message" with
  | some nm, some em, some ms =>
    if isValidEmail em then
      match parseOptStr j "company", parseOptStr j "phone", parseOptStr j "interest" with
      | some co, some ph, some it => some ⟨nm, co, em, ph, ms, it⟩
      | _, _, _ => none
    else none
  | _, _, _ => none

def optVal : Option String → Value
  | none => .null
  | some s => .str s

/-- Insertion dict (`payload.dict()`) for a quote request. -/
def quoteDoc (p : QuoteRequest) : Doc :=
  [("name", .str p.name), ("company", optVal p.company), ("email", .str p.email),
   ("phone", optVal p.phone), ("message", optVal p.message), ("product", optVal p.product)]

/-- Insertion dict (`payload.dict()`) for a contact message. -/
def contactDoc (p : ContactMessage) : Doc :=
  [("name", .str p.name), ("company", optVal p.company), ("email", .str p.email),
   ("phone", optVal p.phone), ("message", .str p.message), ("interest", optVal p.interest)]

/-- The f-string email body of `create_quote`. -/
def quoteBody (p : QuoteRequest) : String :=
  "New Quote Request\n\n"
    ++ "Name: " ++ p.name ++ "\nCompany: " ++ orDash p.company ++ "\n"
    ++ "Email: " ++ p.email ++ "\nPhone: " ++ orDash p.phone ++ "\n"
    ++ "Product: " ++ orDash p.product ++ "\n\nMessage:\n" ++ orDash p.message ++ "\n"

/-- The f-string email body of `create_contact` (`message` is required, so
no `or '-'` on it). -/
def contactBody (p : ContactMessage) : String :=
  "New Contact Message\n\n"
    ++ "Name: " ++ p.name ++ "\nCompany: " ++ orDash p.company ++ "\n"
    ++ "Email: " ++ p.email ++ "\nPhone: " ++ orDash p.phone ++ "\n"
    ++ "Interest: " ++ orDash p.interest ++ "\n\nMessage:\n" ++ p.message ++ "\n"

/-! ## The document store (`database.py` is not among the sources) -/

/-- State of the external document store: the log of inserted documents
tagged by collection, plus a counter from which fresh object ids are
drawn. -/
structure Store where
  docs : List (String × Doc)
  nextId : Nat

def emptyStore : Store := ⟨[], 0⟩

/-- A fresh 24-hex-character object id. -/
def genOid (n : Nat) : String :=
  let hex := (Nat.toDigits 16 n).asString
  ⟨List.replicate (24 - hex.length) '0'⟩ ++ hex

/-- Documents of one collection. -/
def collDocs (s : Store) (coll : String) : List Doc :=
  (s.docs.filter (fun cd => cd.1 == coll)).map (fun cd => cd.2)

/-- Whether the database raises on this call (connection down, write
refused, ...). -/
inductive DbBehavior where
  | avail
  | failing (msg : String)

/-- Modelled from the spec: `create_document` (from the absent
`database.py`) is the "generic insert" half of the document-store accessor
— it inserts the payload dict into the named collection, stamping a fresh
`_id`, and returns the inserted id as a string; a database error raises. -/
def create_document (dbb : DbBehavior) (coll : String) (payload : Doc) (s : Store) :
    Except String (String × Store) :=
  match dbb with
  | .failing m => .error m
  | .avail =>
    let oid := genOid s.nextId
    .ok (oid, ⟨s.docs ++ [(coll, dictSet payload "_id" (.objectId oid))], s.nextId + 1⟩)

/-! ## Lead-capture handlers (`create_quote`, `create_contact`) -/

/-- Observable effects of a handler run, in order. -/
inductive Event where
  | insert (coll : String) (payload : Doc)
  | emailAttempt (subject body : String)

structure LeadResp where
  id : String
  email : EmailResult

/-- Result of running a lead-capture handler: the store afterwards, the
ordered effect trace, and either the JSON response or an uncaught
exception. -/
structure LeadOut where
  store : Store
  trace : List Event
  result : Except String LeadResp

/-- Handler `create_quote` from `main.py`: insert first, then build the body from
the payload and attempt the email; the email helper's uncaught exceptions
propagate out of the handler. -/
def create_quote (env : Env) (smtp : SmtpBehavior) (dbb : DbBehavior)
    (payload : QuoteRequest) (s : Store) : LeadOut :=
  match create_document dbb "quoterequest" (quoteDoc payload) s with
  | .error m => ⟨s, [], .error m⟩
  | .ok (quote_id, s') =>
    let body := quoteBody payload
    let tr := [Event.insert "quoterequest" (quoteDoc payload),
               Event.emailAttempt "New Quote Request" body]
    match maybe_send_email env smtp "New Quote Request" body with
    | .error e => ⟨s', tr, .error e⟩
    | .ok er => ⟨s', tr, .ok ⟨quote_id, er⟩⟩

/-- Handler `create_contact` from `main.py`. -/
def create_contact (env : Env) (smtp : SmtpBehavior) (dbb : DbBehavior)
    (payload : ContactMessage) (s : Store) : LeadOut :=
  match create_document dbb "contactmessage" (contactDoc payload) s with
  | .error m => ⟨s, [], .error m⟩
  | .ok (msg_id, s') =>
    let body := contactBody payload
    let tr := [Event.insert "contactmessage" (contactDoc payload),
               Event.emailAttempt "New Contact Message" body]
    match maybe_send_email env smtp "New Contact Message" body with
    | .error e => ⟨s', tr, .error e⟩
    | .ok er => ⟨s', tr, .ok ⟨msg_id, er⟩⟩

/-! ## Query filters and the products listing -/

/-- A single-field condition of a Mongo-style filter. -/
inductive FilterCond where
  | eqVal (v : Value)
  /-- `{"$regex": pat, "$options": "i"}`. -/
  | regexI (pat : String)

/-- An entry of the filter dict: either a field condition or the `$or`
list of single-field alternatives built for text search. -/
inductive FilterEntry where
  | field (name : String) (cond : FilterCond)
  | orDisj (alts : List (String × FilterCond))

abbrev Filter : Type := List FilterEntry

/-- The condition the filter puts on a field name, if any. -/
def filterField (f : Filter) (name : String) : Option FilterCond :=
  match f with
  | [] => none
  | .field n c :: rest => if n == name then some c else filterField rest name
  | .orDisj _ :: rest => filterField rest name

/-- The `$or` clause of the filter, if any. -/
def filterOr (f : Filter) : Option (List (String × FilterCond)) :=
  match f with
  | [] => none
  | .field _ _ :: rest => filterOr rest
  | .orDisj alts :: _ => some alts

/-- One `if param: filt[name] = param` step of the filter construction:
the entry is added exactly when the parameter is truthy (so not when the
client passes the empty string). -/
def condField (name : String) (v : Option String) : Filter :=
  match v with
  | some c => if c ≠ "" then [.field name (.eqVal (.str c))] else []
  | none => []

/-- The text-search step: `filt["$or"] = [...]` when `q` is truthy. -/
def condTextSearch (q : Option String) : Filter :=
  match q with
  | some qq =>
    if qq ≠ "" then [.orDisj [("title", .regexI qq), ("description", .regexI qq)]]
    else []
  | none => []

/-- The filter dict built by `list_products`: `is_active` always; each of
`category` / `material_type` / `size` added when truthy; the `$or` regex
pair when `q` is truthy. -/
def productFilter (category material_type size q : Option String) : Filter :=
  [.field "is_active" (.eqVal (.bool true))]
    ++ condField "category" category
    ++ condField "material_type" material_type
    ++ condField "size" size
    ++ condTextSearch q

mutual

/-- Structural equality of values (Mongo equality match on a field). -/
def valBeq : Value → Value → Bool
  | .str a, .str b => a == b
  | .int a, .int b => a == b
  | .bool a, .bool b => a == b
  | .objectId a, .objectId b => a == b
  | .null, .null => true
  | .arr a, .arr b => valBeqL a b
  | .obj a, .obj b => valBeqO a b
  | _, _ => false

/-- Structural equality on lists of values. -/
def valBeqL : List Value → List Value → Bool
  | [], [] => true
  | x :: xs, y :: ys => valBeq x y && valBeqL xs ys
  | _, _ => false

/-- Structural equality on objects. -/
def valBeqO : List (String × Value) → List (String × Value) → Bool
  | [], [] => true
  | (k, x) :: xs, (l, y) :: ys => k == l && valBeq x y && valBeqO xs ys
  | _, _ => false

end

/-- Does the pattern occur at the head of the haystack? -/
def matchHere : List Char → List Char → Bool
  | [], _ => true
  | _ :: _, [] => false
  | a :: as, b :: bs => a == b && matchHere as bs

/-- Substring occurrence on character lists. -/
def hasSubList (pat : List Char) : List Char → Bool
  | [] => matchHere pat []
  | c :: t => matchHere pat (c :: t) || hasSubList pat t

/-- Case-insensitive substring test: our model of an `$options: "i"` regex
match for the literal patterns the service builds. -/
def containsCI (hay pat : String) : Bool :=
  hasSubList pat.toLower.data hay.toLower.data

def matchesCond (d : Doc) (name : String) : FilterCond → Bool
  | .eqVal v =>
    match dictGet d name with
    | some w => valBeq w v
    | none => false
  | .regexI pat =>
    match dictGet d name with
    | some (.str s) => containsCI s pat
    | _ => false

def matchesEntry (d : Doc) : FilterEntry → Bool
  | .field n c => matchesCond d n c
  | .orDisj alts => alts.any (fun nc => matchesCond d nc.1 nc.2)

/-- Modelled from the spec: `get_documents` (from the absent `database.py`)
is the "generic find" half of the document-store accessor — it queries the
named collection with the filter and result limit and returns the matching
documents. -/
def get_documents (coll : String) (filt : Filter) (lim : Option Int) (s : Store) :
    List Doc :=
  let ds := (collDocs s coll).filter (fun d => filt.all (matchesEntry d))
  match lim with
  | none => ds
  | some n => ds.take n.toNat

/-- Handler `list_products` from `main.py`: build the filter from the query
parameters, query the `product` collection with it and the limit, and
serialize each document. -/
def list_products (category material_type size q : Option String)
    (lim : Option Int) (s : Store) : List Doc :=
  (get_documents "product" (productFilter category material_type size q) lim s).map
    serialize_doc

/-- Handler `list_projects` from `main.py`. -/
def list_projects (lim : Option Int) (s : Store) : List Doc :=
  (get_documents "project" [.field "is_active" (.eqVal (.bool true))] lim s).map
    serialize_doc

/-! ## By-id lookups and the remaining endpoints -/

def isHexDig (c : Char) : Bool :=
  isDig c || ('a' ≤ c && c ≤ 'f') || ('A' ≤ c && c ≤ 'F')

/-- Constructor `bson.ObjectId(s)`: accepts exactly 24 hex characters, normalising to
lower case; `none` models the `InvalidId` exception. -/
def objectIdOfString (s : String) : Option String :=
  if s.length == 24 && s.data.all isHexDig then some s.toLower else none

/-- Lookup `find_one` by `_id` on a collection. -/
def find_one (s : Store) (coll : String) (oid : String) : Option Doc :=
  (collDocs s coll).find? (fun d =>
    match dictGet d "_id" with
    | some (.objectId h) => h == oid
    | _ => false)

/-- An HTTP outcome: a JSON body, an `HTTPException`, or an uncaught
exception (a 500 at the framework level). -/
inductive HttpOut where
  | ok (body : Value)
  | httpError (status : Nat) (detail : String)
  | raised (msg : String)

/-- Turn a serialized document into a JSON response body. -/
def docBody (d : Doc) : Value := .obj d

/-- Handler `get_product` from `main.py`: the whole body sits in a
`try ... except Exception` that turns every failure — invalid id, no
match, database error — into a 404. -/
def get_product (dbOk : Bool) (product_id : String) (s : Store) : HttpOut :=
  match objectIdOfString product_id with
  | none => .httpError 404 "Product not found"
  | some oid =>
    if dbOk then
      match find_one s "product" oid with
      | none => .httpError 404 "Product not found"
      | some d => .ok (docBody (serialize_doc d))
    else .httpError 404 "Product not found"

/-- Handler `get_project` from `main.py`: same shape as `get_product`. -/
def get_project (dbOk : Bool) (project_id : String) (s : Store) : HttpOut :=
  match objectIdOfString project_id with
  | none => .httpError 404 "Project not found"
  | some oid =>
    if dbOk then
      match find_one s "project" oid with
      | none => .httpError 404 "Project not found"
      | some d => .ok (docBody (serialize_doc d))
    else .httpError 404 "Project not found"

/-- Handler `get_categories` from `main.py`: a literal list. -/
def get_categories : List String :=
  ["Timber & Plywood", "Steel & Rebar", "Fixings & Hardware", "HVAC & Installation"]

/-- The `/` handler. -/
def rootBody : Value :=
  .obj [("status", .str "ok"), ("service", .str "Diwan Al-Ardiya Backend")]

/-- The `/test` handler: reports reachability of the database; never
raises (it catches every exception into its payload). -/
def test_database (dbOk : Bool) (s : Store) : HttpOut :=
  if dbOk then
    .ok (.obj [("backend", .str "running"), ("db_connected", .bool true),
      ("collections", .arr (((s.docs.map (fun cd => cd.1)).eraseDups).map .str))])
  else
    .ok (.obj [("backend", .str "running"), ("db_connected", .bool false),
      ("error", .str "database unavailable")])

/-- Schema `Product` from `schemas.py`. -/
structure ProductPayload where
  title : String
  description : Option String
  category : String
  material_type : Option String
  size : Option String
  weight : Option String
  images : List String
  specs : Option (List (String × Value))
  is_active : Bool

/-- Schema `Project` from `schemas.py`. -/
structure ProjectPayload where
  title : String
  description : Option String
  materials_used : List String
  images : List String
  is_featured : Bool
  is_active : Bool

/-- Validation of a `List[str]` field with default `[]`. -/
def parseStrList (j : Doc) (k : String) : Option (List String) :=
  match dictGet j k with
  | none => some []
  | some (.arr xs) =>
    xs.foldr (fun v acc =>
      match v, acc with
      | .str s, some ss => some (s :: ss)
      | _, _ => none) (some [])
  | some _ => none

/-- Validation of a `bool` field with a default. -/
def parseBoolD (j : Doc) (k : String) (dflt : Bool) : Option Bool :=
  match dictGet j k with
  | none => some dflt
  | some (.bool b) => some b
  | some _ => none

/-- Validation of the `Optional[dict]` specs field (default `{}`). -/
def parseSpecs (j : Doc) : Option (Option (List (String × Value))) :=
  match dictGet j "specs" with
  | none => some (some [])
  | some .null => some none
  | some (.obj fields) => some (some fields)
  | some _ => none

/-- Pydantic validation of a `Product` body. -/
def parseProduct (j : Doc) : Option ProductPayload :=
  match parseReqStr j "title", parseReqStr j "category" with
  | some t, some c =>
    match parseOptStr j "description", parseOptStr j "material_type",
          parseOptStr j "size", parseOptStr j "weight" with
    | some de, some mt, some sz, some w =>
      match parseStrList j "images", parseSpecs j, parseBoolD j "is_active" true with
      | some im, some sp, some ia => some ⟨t, de, c, mt, sz, w, im, sp, ia⟩
      | _, _, _ => none
    | _, _, _, _ => none
  | _, _ => none

/-- Pydantic validation of a `Project` body. -/
def parseProject (j : Doc) : Option ProjectPayload :=
  match parseReqStr j "title", parseOptStr j "description" with
  | some t, some de =>
    match parseStrList j "materials_used", parseStrList j "images",
          parseBoolD j "is_featured" false, parseBoolD j "is_active" true with
    | some mu, some im, some ife, some ia => some ⟨t, de, mu, im, ife, ia⟩
    | _, _, _, _ => none
  | _, _ => none

def productDoc (p : ProductPayload) : Doc :=
  [("title", .str p.title), ("description", optVal p.description),
   ("category", .str p.category), ("material_type", optVal p.material_type),
   ("size", optVal p.size), ("weight", optVal p.weight),
   ("images", .arr (p.images.map .str)),
   ("specs", match p.specs with | none => .null | some fs => .obj fs),
   ("is_active", .bool p.is_active)]

def projectDoc (p : ProjectPayload) : Doc :=
  [("title", .str p.title), ("description", optVal p.description),
   ("materials_used", .arr (p.materials_used.map .str)),
   ("images", .arr (p.images.map .str)),
   ("is_featured", .bool p.is_featured), ("is_active", .bool p.is_active)]

/-! ## The application as a request dispatcher -/

/-- Everything outside the process that a request's handling can depend
on: the environment variables, the SMTP server's behaviour and the
database's reachability. -/
structure World where
  env : Env
  smtp : SmtpBehavior
  dbOk : Bool

def dbbOf (w : World) : DbBehavior :=
  if w.dbOk then .avail else .failing "database unavailable"

/-- One HTTP request to the service (path + query/body already decoded;
for the POST endpoints the raw JSON body, validated by the framework
before the handler runs). -/
inductive Request where
  | rootReq
  | testReq
  | categoriesReq
  | productsReq (category material_type size q : Option String) (lim : Option Int)
  | productByIdReq (product_id : String)
  | postProductReq (j : Doc)
  | projectsReq (lim : Option Int)
  | projectByIdReq (project_id : String)
  | postProjectReq (j : Doc)
  | postQuoteReq (j : Doc)
  | postContactReq (j : Doc)

def leadRespBody (r : LeadResp) : Value :=
  .obj [("id", .str r.id),
        ("email", .obj [("sent", .bool r.email.sent), ("detail", .str r.email.detail)])]

/-- Endpoint `POST /api/quote` at the framework level: validate, then run
`create_quote`. -/
def post_quote (env : Env) (smtp : SmtpBehavior) (dbb : DbBehavior) (j : Doc)
    (s : Store) : Store × List Event × HttpOut :=
  match parseQuoteRequest j with
  | none => (s, [], .httpError 422 "validation error")
  | some p =>
    let o := create_quote env smtp dbb p s
    (o.store, o.trace,
      match o.result with
      | .error m => .raised m
      | .ok r => .ok (leadRespBody r))

/-- Endpoint `POST /api/contact` at the framework level. -/
def post_contact (env : Env) (smtp : SmtpBehavior) (dbb : DbBehavior) (j : Doc)
    (s : Store) : Store × List Event × HttpOut :=
  match parseContactMessage j with
  | none => (s, [], .httpError 422 "validation error")
  | some p =>
    let o := create_contact env smtp dbb p s
    (o.store, o.trace,
      match o.result with
      | .error m => .raised m
      | .ok r => .ok (leadRespBody r))

/-- Endpoints `POST /api/products` and `POST /api/projects`, shared shape: validate,
insert, answer `{"id": inserted_id}`. -/
def post_entity (dbb : DbBehavior) (coll : String) (payload : Doc) (s : Store) :
    Store × HttpOut :=
  match create_document dbb coll payload s with
  | .error m => (s, .raised m)
  | .ok (i, s') => (s', .ok (.obj [("id", .str i)]))

/-- The whole application: route a request to its handler.  The only state
threaded through is the external store; everything else a handler reads is
in `World`. -/
def handleRequest (w : World) (r : Request) (s : Store) : Store × HttpOut :=
  match r with
  | .rootReq => (s, .ok rootBody)
  | .testReq => (s, test_database w.dbOk s)
  | .categoriesReq => (s, .ok (.arr (get_categories.map .str)))
  | .productsReq c m sz q lim =>
    (s, if w.dbOk then .ok (.arr ((list_products c m sz q lim s).map docBody))
        else .raised "database unavailable")
  | .productByIdReq pid => (s, get_product w.dbOk pid s)
  | .postProductReq j =>
    (match parseProduct j with
     | none => (s, .httpError 422 "validation error")
     | some p => post_entity (dbbOf w) "product" (productDoc p) s)
  | .projectsReq lim =>
    (s, if w.dbOk then .ok (.arr ((list_projects lim s).map docBody))
        else .raised "database unavailable")
  | .projectByIdReq pid => (s, get_project w.dbOk pid s)
  | .postProjectReq j =>
    (match parseProject j with
     | none => (s, .httpError 422 "validation error")
     | some p => post_entity (dbbOf w) "project" (projectDoc p) s)
  | .postQuoteReq j =>
    (let o := post_quote w.env w.smtp (dbbOf w) j s
     (o.1, o.2.2))
  | .postContactReq j =>
    (let o := post_contact w.env w.smtp (dbbOf w) j s
     (o.1, o.2.2))

/-- Run a sequence of requests, threading only the store, collecting the
responses in order. -/
def runSeq (w : World) (rs : List Request) (s : Store) : Store × List HttpOut :=
  match rs with
  | [] => (s, [])
  | r :: rest =>
    let so := handleRequest w r s
    let rest' := runSeq w rest so.1
    (rest'.1, so.2 :: rest'.2)

/-- Entries the products filter may contain: the four named field
conditions and the text-search disjunction. -/
def allowedEntry : FilterEntry → Bool
  | .field n _ => n == "is_active" || n == "category" || n == "material_type" || n == "size"
  | .orDisj _ => true

/-- FastAPI defaulting for the signature `limit: Optional[int] = 100`: an
omitted query parameter reaches the handler as `100`. -/
def limitParamValue (given : Option (Option Int)) : Option Int :=
  match given with
  | none => some 100
  | some v => v

/-! ## Helper lemmas -/

theorem dictGet_dictPop_self (d : Doc) (k : String) : dictGet (dictPop d k) k = none := by
  induction d with
  | nil => rfl
  | cons kv rest ih =>
    obtain ⟨k', v⟩ := kv
    by_cases h : k' = k
    · simp [dictPop, h, ih]
    · simp [dictPop, dictGet, h, ih]

theorem dictGet_dictPop_other (d : Doc) (k k' : String) (h : k' ≠ k) :
    dictGet (dictPop d k) k' = dictGet d k' := by
  induction d with
  | nil => rfl
  | cons kv rest ih =>
    obtain ⟨k₀, v⟩ := kv
    by_cases h0 : k₀ = k
    · simp [dictPop, dictGet, h0, Ne.symm h, ih]
    · by_cases h1 : k₀ = k'
      · simp [dictPop, dictGet, h0, h1, h]
      · simp [dictPop, dictGet, h0, h1, ih]

theorem dictGet_dictSet_self (d : Doc) (k : String) (v : Value) :
    dictGet (dictSet d k v) k = some v := by
  induction d with
  | nil => simp [dictSet, dictGet]
  | cons kv rest ih =>
    obtain ⟨k', v'⟩ := kv
    by_cases h : k' = k
    · simp [dictSet, dictGet, h]
    · simp [dictSet, dictGet, h, ih]

theorem dictGet_dictSet_other (d : Doc) (k k' : String) (v : Value) (h : k' ≠ k) :
    dictGet (dictSet d k v) k' = dictGet d k' := by
  induction d with
  | nil => simp [dictSet, dictGet, Ne.symm h]
  | cons kv rest ih =>
    obtain ⟨k₀, v₀⟩ := kv
    by_cases h0 : k₀ = k
    · simp [dictSet, dictGet, h0, Ne.symm h, dictGet_dictPop_other rest k k' h]
    · by_cases h1 : k₀ = k'
      · simp [dictSet, dictGet, h0, h1, h]
      · simp [dictSet, dictGet, h0, h1, ih]

theorem filterField_append (xs ys : Filter) (name : String) :
    filterField (xs ++ ys) name =
      (match filterField xs name with
       | some c => some c
       | none => filterField ys name) := by
  induction xs with
  | nil => simp [filterField]
  | cons e rest ih =>
    cases e with
    | field n c =>
      by_cases h : n = name
      · simp [filterField, h]
      · simp [filterField, h, ih]
    | orDisj alts => simp [filterField, ih]

theorem filterOr_append (xs ys : Filter) :
    filterOr (xs ++ ys) =
      (match filterOr xs with
       | some a => some a
       | none => filterOr ys) := by
  induction xs with
  | nil => simp [filterOr]
  | cons e rest ih =>
    cases e with
    | field n c => simp [filterOr, ih]
    | orDisj alts => simp [filterOr]

theorem filterOr_condField (name : String) (v : Option String) :
    filterOr (condField name v) = none := by
  cases v with
  | none => rfl
  | some c =>
    by_cases h : c = ""
    · simp [condField, h, filterOr]
    · simp [condField, h, filterOr]

theorem filterField_condField_self (name : String) (v : Option String) :
    filterField (condField name v) name =
      (match v with
       | some c => if c = "" then none else some (.eqVal (.str c))
       | none => none) := by
  cases v with
  | none => rfl
  | some c =>
    by_cases h : c = ""
    · simp [condField, h, filterField]
    · simp [condField, h, filterField]

theorem filterField_condField_other (name name' : String) (v : Option String)
    (h : name ≠ name') :
    filterField (condField name v) name' = none := by
  cases v with
  | none => rfl
  | some c =>
    by_cases hc : c = ""
    · simp [condField, hc, filterField]
    · simp [condField, hc, filterField, h]

theorem filterField_condTextSearch (q : Option String) (name : String) :
    filterField (condTextSearch q) name = none := by
  cases q with
  | none => rfl
  | some qq =>
    by_cases h : qq = ""
    · simp [condTextSearch, h, filterField]
    · simp [condTextSearch, h, filterField]

theorem filterOr_condTextSearch (q : Option String) :
    filterOr (condTextSearch q) =
      (match q with
       | some qq =>
         if qq = "" then none
         else some [("title", .regexI qq), ("description", .regexI qq)]
       | none => none) := by
  cases q with
  | none => rfl
  | some qq =>
    by_cases h : qq = ""
    · simp [condTextSearch, h, filterOr]
    · simp [condTextSearch, h, filterOr]

theorem allowedEntry_condField (name : String) (v : Option String)
    (h : (name == "is_active" || name == "category"
          || name == "material_type" || name == "size") = true) :
    (condField name v).all allowedEntry = true := by
  cases v with
  | none => rfl
  | some c =>
    by_cases hc : c = ""
    · simp [condField, hc]
    · simp [condField, hc, allowedEntry, h]

theorem allowedEntry_condTextSearch (q : Option String) :
    (condTextSearch q).all allowedEntry = true := by
  cases q with
  | none => rfl
  | some qq =>
    by_cases h : qq = ""
    · simp [condTextSearch, h]
    · simp [condTextSearch, h, allowedEntry]

theorem parseReqStr_inv (j : Doc) (k v : String)
    (h : parseReqStr j k = some v) : dictGet j k = some (.str v) := by
  unfold parseReqStr at h
  split at h
  · next s heq =>
    injection h with h'
    exact h' ▸ heq
  · exact absurd h (by simp)

/-- Complete description of `maybe_send_email` when the port variable
parses: it returns normally, and the result is decided by the
configuration gate and the SMTP outcome. -/
theorem maybe_send_email_eq (env : Env) (smtp : SmtpBehavior) (subject body : String)
    (pi : Int) (hpi : pyInt (env.smtpPortVar.getD "0") = some pi) :
    maybe_send_email env smtp subject body =
      .ok (if smtpConfigured env then
             match smtp with
             | .delivers => ⟨true, "Email sent"⟩
             | .raises m => ⟨false, "Email error: " ++ m⟩
           else ⟨false, "SMTP not configured; entry logged to database only."⟩) := by
  unfold maybe_send_email smtpConfigured
  rw [hpi]
  by_cases hz : pi = 0
  · simp [hz]
  · cases hh : optTruthy env.smtpHost <;> cases ht : optTruthy env.emailTo
      <;> cases smtp <;> simp [hz, hh, ht]

theorem collapse_match (o : Option FilterCond) :
    (match o with | some c => some c | none => none) = o := by
  cases o <;> rfl

theorem runSeq_append1 (w : World) (rs : List Request) (r : Request) (s : Store) :
    runSeq w (rs ++ [r]) s
      = ((handleRequest w r (runSeq w rs s).1).1,
         (runSeq w rs s).2 ++ [(handleRequest w r (runSeq w rs s).1).2]) := by
  induction rs generalizing s with
  | nil => simp [runSeq]
  | cons a rest ih => simp [runSeq, ih]

/-! ## Claim theorems -/

/-- C10: `GET /api/categories` always returns the same fixed four-element
list — Timber & Plywood, Steel & Rebar, Fixings & Hardware, HVAC &
Installation — in that order, whatever the store, the environment and the
request around it. -/
theorem categories_constant (w : World) (s : Store) :
    handleRequest w .categoriesReq s
      = (s, .ok (.arr [.str "Timber & Plywood", .str "Steel & Rebar",
                       .str "Fixings & Hardware", .str "HVAC & Installation"]))
    ∧ get_categories = ["Timber & Plywood", "Steel & Rebar",
                        "Fixings & Hardware", "HVAC & Installation"] :=
  ⟨rfl, rfl⟩

/-- C9: for every path parameter, `GET /api/products/{product_id}` and
`GET /api/projects/{project_id}` either return the serialized matching
document or answer 404 with the fixed detail; an invalid ObjectId string,
a missing document and a database error all land in the 404 case and no
other error status is produced. -/
theorem byid_lookup_total_404 (dbOk : Bool) (pid : String) (s : Store) :
    (get_product dbOk pid s = .httpError 404 "Product not found"
      ∨ ∃ oid d, objectIdOfString pid = some oid ∧ dbOk = true
          ∧ find_one s "product" oid = some d
          ∧ get_product dbOk pid s = .ok (docBody (serialize_doc d)))
    ∧ (get_project dbOk pid s = .httpError 404 "Project not found"
      ∨ ∃ oid d, objectIdOfString pid = some oid ∧ dbOk = true
          ∧ find_one s "project" oid = some d
          ∧ get_project dbOk pid s = .ok (docBody (serialize_doc d))) := by
  constructor
  · cases ho : objectIdOfString pid with
    | none => left; simp [get_product, ho]
    | some oid =>
      cases dbOk with
      | false => left; simp [get_product, ho]
      | true =>
        cases hf : find_one s "product" oid with
        | none => left; simp [get_product, ho, hf]
        | some d => right; exact ⟨oid, d, rfl, rfl, hf, by simp [get_product, ho, hf]⟩
  · cases ho : objectIdOfString pid with
    | none => left; simp [get_project, ho]
    | some oid =>
      cases dbOk with
      | false => left; simp [get_project, ho]
      | true =>
        cases hf : find_one s "project" oid with
        | none => left; simp [get_project, ho, hf]
        | some d => right; exact ⟨oid, d, rfl, rfl, hf, by simp [get_project, ho, hf]⟩

/-- C8: no handler keeps in-process state: the response to a request after
any prefix of requests is a function of the world and of the store the
prefix produced (the external database is the only channel between
requests), and every GET handler returns the store unchanged. -/
theorem handlers_stateless (w : World) (s : Store) (rs : List Request) (r : Request)
    (c m sz q : Option String) (lim : Option Int) (pid : String) :
    (runSeq w (rs ++ [r]) s).2.getLast? = some (handleRequest w r (runSeq w rs s).1).2
    ∧ (handleRequest w .rootReq s).1 = s
    ∧ (handleRequest w .testReq s).1 = s
    ∧ (handleRequest w .categoriesReq s).1 = s
    ∧ (handleRequest w (.productsReq c m sz q lim) s).1 = s
    ∧ (handleRequest w (.productByIdReq pid) s).1 = s
    ∧ (handleRequest w (.projectsReq lim) s).1 = s
    ∧ (handleRequest w (.projectByIdReq pid) s).1 = s := by
  refine ⟨?_, rfl, rfl, rfl, rfl, rfl, rfl, rfl⟩
  rw [runSeq_append1]
  simp

/-- C7: in both lead-capture handlers the insert strictly precedes the
email attempt in the effect trace, the email body is built from the very
payload that was inserted, and when the insert raises no email attempt
happens at all. -/
theorem insert_precedes_email_attempt (env : Env) (smtp : SmtpBehavior)
    (qp : QuoteRequest) (cp : ContactMessage) (s : Store) (m : String) :
    (create_quote env smtp .avail qp s).trace
        = [.insert "quoterequest" (quoteDoc qp),
           .emailAttempt "New Quote Request" (quoteBody qp)]
    ∧ (create_quote env smtp (.failing m) qp s).trace = []
    ∧ (create_contact env smtp .avail cp s).trace
        = [.insert "contactmessage" (contactDoc cp),
           .emailAttempt "New Contact Message" (contactBody cp)]
    ∧ (create_contact env smtp (.failing m) cp s).trace = [] := by
  refine ⟨?_, rfl, ?_, rfl⟩
  · unfold create_quote create_document
    cases h : maybe_send_email env smtp "New Quote Request" (quoteBody qp) <;> simp [h]
  · unfold create_contact create_document
    cases h : maybe_send_email env smtp "New Contact Message" (contactBody cp) <;> simp [h]

/-- C5, counterexample: on a document that already carries an `id` key
besides `_id`, `serialize_doc` does not leave that other key's value
unchanged — `d["id"] = str(d.pop("_id"))` overwrites it. -/
theorem serialize_doc_overwrites_id :
    dictGet [("_id", Value.objectId "0a"), ("id", Value.str "old")] "id"
        = some (Value.str "old")
    ∧ dictGet (serialize_doc [("_id", Value.objectId "0a"), ("id", Value.str "old")]) "id"
        = some (Value.str "0a")
    ∧ (some (Value.str "0a") ≠ some (Value.str "old")) := by
  refine ⟨rfl, rfl, ?_⟩
  intro h
  injection h with h1
  injection h1 with h2
  exact absurd h2 (by decide)

/-- C5, amended: `serialize_doc` removes `_id` (when present) and sets
`id` to the string form of that `_id` — overwriting any pre-existing `id`
value — while every key other than `_id` and `id` maps to an unchanged
value; a document with no `_id` key is returned as is (and the input is
never mutated: the handler works on a copy). -/
theorem serialize_doc_spec (doc : Doc) :
    (dictGet doc "_id" = none → serialize_doc doc = doc)
    ∧ ∀ v, dictGet doc "_id" = some v →
        dictGet (serialize_doc doc) "_id" = none
        ∧ dictGet (serialize_doc doc) "id" = some (.str (pyStr v))
        ∧ ∀ k, k ≠ "_id" → k ≠ "id" → dictGet (serialize_doc doc) k = dictGet doc k := by
  cases h : dictGet doc "_id" with
  | none =>
    refine ⟨fun _ => ?_, fun v hv => absurd hv (by simp)⟩
    simp [serialize_doc, h]
  | some v =>
    refine ⟨fun hn => absurd hn (by simp), fun v' hv' => ?_⟩
    have hv : v' = v := by
      injection hv' with h'
      exact h'.symm
    subst hv
    have hs : serialize_doc doc = dictSet (dictPop doc "_id") "id" (.str (pyStr v')) := by
      simp [serialize_doc, h]
    refine ⟨?_, ?_, ?_⟩
    · rw [hs, dictGet_dictSet_other _ _ _ _ (by decide), dictGet_dictPop_self]
    · rw [hs, dictGet_dictSet_self]
    · intro k hk1 hk2
      rw [hs, dictGet_dictSet_other _ _ _ _ hk2, dictGet_dictPop_other _ _ _ hk1]

/-- C5, witness: the amended theorem evaluated on a concrete document. -/
theorem serialize_doc_spec_witness :
    dictGet (serialize_doc [("_id", Value.objectId "ff"), ("x", Value.int 3)]) "_id" = none
    ∧ dictGet (serialize_doc [("_id", Value.objectId "ff"), ("x", Value.int 3)]) "id"
        = some (Value.str "ff")
    ∧ dictGet (serialize_doc [("_id", Value.objectId "ff"), ("x", Value.int 3)]) "x"
        = some (Value.int 3)
    ∧ serialize_doc [("y", Value.int 7)] = [("y", Value.int 7)] := by
  have h := serialize_doc_spec [("_id", Value.objectId "ff"), ("x", Value.int 3)]
  have h2 := (h.2 (Value.objectId "ff") rfl)
  have h3 := serialize_doc_spec [("y", Value.int 7)]
  exact ⟨h2.1, h2.2.1, h2.2.2 "x" (by decide) (by decide), h3.1 rfl⟩

/-- C3, counterexample: a client-supplied but empty `category` query
parameter is not included in the filter — `if category:` is a Python
truthiness test, not a presence test. -/
theorem productFilter_drops_empty_category :
    filterField (productFilter (some "") none none none) "category" = none := rfl

/-- C3, amended: the filter always contains `is_active = true`; each of
`category`, `material_type` and `size` is included unchanged exactly when
the client supplies it with a non-empty value; nothing else is added
besides the text-search clause; and the limit (100 when the parameter is
omitted) is passed to the document-store query. -/
theorem productFilter_passthrough (category material_type size q : Option String)
    (lim : Option Int) (s : Store) :
    filterField (productFilter category material_type size q) "is_active"
        = some (.eqVal (.bool true))
    ∧ filterField (productFilter category material_type size q) "category"
        = (match category with
           | some c => if c = "" then none else some (.eqVal (.str c))
           | none => none)
    ∧ filterField (productFilter category material_type size q) "material_type"
        = (match material_type with
           | some c => if c = "" then none else some (.eqVal (.str c))
           | none => none)
    ∧ filterField (productFilter category material_type size q) "size"
        = (match size with
           | some c => if c = "" then none else some (.eqVal (.str c))
           | none => none)
    ∧ (productFilter category material_type size q).all allowedEntry = true
    ∧ list_products category material_type size q lim s
        = (get_documents "product" (productFilter category material_type size q) lim s).map
            serialize_doc
    ∧ list_products category material_type size q (limitParamValue none) s
        = (get_documents "product" (productFilter category material_type size q) (some 100) s).map
            serialize_doc := by
  refine ⟨?_, ?_, ?_, ?_, ?_, rfl, rfl⟩
  · simp [productFilter, filterField]
  · simp [productFilter, filterField_append, filterField_condField_self,
      filterField_condField_other, filterField_condTextSearch, filterField, collapse_match]
  · simp [productFilter, filterField_append, filterField_condField_self,
      filterField_condField_other, filterField_condTextSearch, filterField, collapse_match]
  · simp [productFilter, filterField_append, filterField_condField_self,
      filterField_condField_other, filterField_condTextSearch, filterField, collapse_match]
  · simp [productFilter, List.all_append, allowedEntry,
      allowedEntry_condField "category" category (by decide),
      allowedEntry_condField "material_type" material_type (by decide),
      allowedEntry_condField "size" size (by decide),
      allowedEntry_condTextSearch]

/-- C4, counterexample: a supplied but empty `q` parameter produces no
text-search clause, because `if q:` tests truthiness. -/
theorem productFilter_drops_empty_q :
    filterOr (productFilter none none none (some "")) = none := rfl

/-- C4, amended: for every request supplying a non-empty `q`, the filter
contains an `$or` disjunction of exactly two case-insensitive regex
matches of `q`, on `title` and on `description`; no text-search clause is
present when `q` is absent or empty. -/
theorem productFilter_text_search (c m sz : Option String) (q : String) :
    filterOr (productFilter c m sz (some q))
        = (if q = "" then none
           else some [("title", .regexI q), ("description", .regexI q)])
    ∧ filterOr (productFilter c m sz none) = none := by
  constructor <;>
    simp [productFilter, filterOr_append, filterOr_condField, filterOr_condTextSearch,
      filterOr]

/-- C2, counterexample: with `SMTP_HOST`, `EMAIL_TO` and the rest unset
but `SMTP_PORT` set to the non-integer string `off`, `maybe_send_email`
does propagate an exception — `int(os.getenv("SMTP_PORT", "0"))` runs
before the `try` block and raises `ValueError`. -/
theorem maybe_send_email_can_raise :
    maybe_send_email ⟨none, some "off", none, none, none, none⟩ .delivers "s" "b"
      = .error "ValueError: invalid literal for int() with base 10: off" := rfl

/-- C2, amended: provided `SMTP_PORT` (defaulted to `"0"`) parses as an
integer, `maybe_send_email` never propagates an exception; it returns
`sent = false` with an explanatory detail whenever host, nonzero port or
recipient is missing or the SMTP dispatch raises, and `sent = true`
exactly when everything is configured and the server accepts the message.
When `SMTP_PORT` holds a non-integer string, the `int()` call raises
before the `try` block and the `ValueError` propagates. -/
theorem maybe_send_email_best_effort (env : Env) (smtp : SmtpBehavior)
    (subject body : String) (hp : portParses env = true) :
    ∃ r : EmailResult, maybe_send_email env smtp subject body = .ok r
      ∧ (smtpConfigured env = false →
          r.sent = false ∧ r.detail = "SMTP not configured; entry logged to database only.")
      ∧ (∀ m, smtpConfigured env = true → smtp = .raises m →
          r.sent = false ∧ r.detail = "Email error: " ++ m)
      ∧ (r.sent = true ↔ smtpConfigured env = true ∧ smtp = .delivers) := by
  unfold portParses at hp
  obtain ⟨pi, hpi⟩ := Option.isSome_iff_exists.mp hp
  rw [maybe_send_email_eq env smtp subject body pi hpi]
  cases hc : smtpConfigured env with
  | false =>
    refine ⟨⟨false, "SMTP not configured; entry logged to database only."⟩, by simp, ?_, ?_, ?_⟩
    · exact fun _ => ⟨rfl, rfl⟩
    · intro m h; exact absurd h (by simp)
    · simp
  | true =>
    cases smtp with
    | delivers =>
      refine ⟨⟨true, "Email sent"⟩, by simp, ?_, ?_, ?_⟩
      · intro h; exact absurd h (by simp)
      · intro m _ h; exact absurd h (by simp)
      · simp
    | raises m =>
      refine ⟨⟨false, "Email error: " ++ m⟩, by simp, ?_, ?_, ?_⟩
      · intro h; exact absurd h (by simp)
      · intro m' _ h
        refine ⟨rfl, ?_⟩
        injection h with h'
        rw [h']
      · simp

/-- C2, witness: the amended theorem evaluated with every variable unset
(port defaults to `"0"`, which parses). -/
theorem maybe_send_email_best_effort_witness :
    ∃ r : EmailResult,
      maybe_send_email ⟨none, none, none, none, none, none⟩ .delivers "s" "b" = .ok r
      ∧ (smtpConfigured ⟨none, none, none, none, none, none⟩ = false →
          r.sent = false ∧ r.detail = "SMTP not configured; entry logged to database only.")
      ∧ (∀ m, smtpConfigured ⟨none, none, none, none, none, none⟩ = true →
          SmtpBehavior.delivers = .raises m → r.sent = false ∧ r.detail = "Email error: " ++ m)
      ∧ (r.sent = true ↔ smtpConfigured ⟨none, none, none, none, none, none⟩ = true
          ∧ SmtpBehavior.delivers = SmtpBehavior.delivers) :=
  maybe_send_email_best_effort ⟨none, none, none, none, none, none⟩ .delivers "s" "b"
    (by decide)

/-- C1, counterexample: with `SMTP_PORT` set to the non-integer string
`abc`, a valid quote request is persisted but the handler then raises the
uncaught `ValueError` from `maybe_send_email`, so the email path does make
the request itself fail (no id is returned). -/
theorem create_quote_can_fail_after_insert :
    (create_quote ⟨none, some "abc", none, none, none, none⟩ .delivers .avail
        ⟨"Ada", none, "ada@ex.com", none, none, none⟩ emptyStore).result
      = .error "ValueError: invalid literal for int() with base 10: abc"
    ∧ (create_quote ⟨none, some "abc", none, none, none, none⟩ .delivers .avail
        ⟨"Ada", none, "ada@ex.com", none, none, none⟩ emptyStore).store.docs.length = 1 :=
  ⟨rfl, rfl⟩

/-- C1, amended: provided `SMTP_PORT` (defaulted to `"0"`) parses as an
integer, both lead-capture handlers persist the payload and return the
inserted document id whatever the email configuration and outcome; when
`SMTP_PORT` is a non-integer string the payload is still persisted but
the request fails with an uncaught `ValueError` instead of returning the
id. -/
theorem lead_capture_persists_and_returns_id (env : Env) (smtp : SmtpBehavior)
    (qp : QuoteRequest) (cp : ContactMessage) (s : Store)
    (hp : portParses env = true) :
    (∃ er, (create_quote env smtp .avail qp s).result = .ok ⟨genOid s.nextId, er⟩)
    ∧ (create_quote env smtp .avail qp s).store
        = ⟨s.docs ++ [("quoterequest",
              dictSet (quoteDoc qp) "_id" (.objectId (genOid s.nextId)))],
           s.nextId + 1⟩
    ∧ (∃ er, (create_contact env smtp .avail cp s).result = .ok ⟨genOid s.nextId, er⟩)
    ∧ (create_contact env smtp .avail cp s).store
        = ⟨s.docs ++ [("contactmessage",
              dictSet (contactDoc cp) "_id" (.objectId (genOid s.nextId)))],
           s.nextId + 1⟩ := by
  unfold portParses at hp
  obtain ⟨pi, hpi⟩ := Option.isSome_iff_exists.mp hp
  have hq := maybe_send_email_eq env smtp "New Quote Request" (quoteBody qp) pi hpi
  have hc := maybe_send_email_eq env smtp "New Contact Message" (contactBody cp) pi hpi
  have h1 : create_quote env smtp .avail qp s
      = ⟨⟨s.docs ++ [("quoterequest",
              dictSet (quoteDoc qp) "_id" (.objectId (genOid s.nextId)))],
          s.nextId + 1⟩,
         [Event.insert "quoterequest" (quoteDoc qp),
          Event.emailAttempt "New Quote Request" (quoteBody qp)],
         .ok ⟨genOid s.nextId,
           if smtpConfigured env = true then
             match smtp with
             | .delivers => ⟨true, "Email sent"⟩
             | .raises m => ⟨false, "Email error: " ++ m⟩
           else ⟨false, "SMTP not configured; entry logged to database only."⟩⟩⟩ := by
    simp [create_quote, create_document, hq]
    cases smtp <;> rfl
  have h2 : create_contact env smtp .avail cp s
      = ⟨⟨s.docs ++ [("contactmessage",
              dictSet (contactDoc cp) "_id" (.objectId (genOid s.nextId)))],
          s.nextId + 1⟩,
         [Event.insert "contactmessage" (contactDoc cp),
          Event.emailAttempt "New Contact Message" (contactBody cp)],
         .ok ⟨genOid s.nextId,
           if smtpConfigured env = true then
             match smtp with
             | .delivers => ⟨true, "Email sent"⟩
             | .raises m => ⟨false, "Email error: " ++ m⟩
           else ⟨false, "SMTP not configured; entry logged to database only."⟩⟩⟩ := by
    simp [create_contact, create_document, hc]
    cases smtp <;> rfl
  rw [h1, h2]
  exact ⟨⟨_, rfl⟩, rfl, ⟨_, rfl⟩, rfl⟩

/-- C1, witness: the amended theorem evaluated with every SMTP variable
unset and an empty store. -/
theorem lead_capture_persists_witness :
    (∃ er, (create_quote ⟨none, none, none, none, none, none⟩ .delivers .avail
        ⟨"Bob", none, "b@ex.io", none, none, none⟩ emptyStore).result
        = .ok ⟨genOid emptyStore.nextId, er⟩)
    ∧ (create_quote ⟨none, none, none, none, none, none⟩ .delivers .avail
        ⟨"Bob", none, "b@ex.io", none, none, none⟩ emptyStore).store
        = ⟨emptyStore.docs ++ [("quoterequest",
              dictSet (quoteDoc ⟨"Bob", none, "b@ex.io", none, none, none⟩) "_id"
                (.objectId (genOid emptyStore.nextId)))],
           emptyStore.nextId + 1⟩
    ∧ (∃ er, (create_contact ⟨none, none, none, none, none, none⟩ .delivers .avail
        ⟨"Eve", none, "e@ex.io", none, "hi", none⟩ emptyStore).result
        = .ok ⟨genOid emptyStore.nextId, er⟩)
    ∧ (create_contact ⟨none, none, none, none, none, none⟩ .delivers .avail
        ⟨"Eve", none, "e@ex.io", none, "hi", none⟩ emptyStore).store
        = ⟨emptyStore.docs ++ [("contactmessage",
              dictSet (contactDoc ⟨"Eve", none, "e@ex.io", none, "hi", none⟩) "_id"
                (.objectId (genOid emptyStore.nextId)))],
           emptyStore.nextId + 1⟩ :=
  lead_capture_persists_and_returns_id ⟨none, none, none, none, none, none⟩ .delivers
    ⟨"Bob", none, "b@ex.io", none, none, none⟩ ⟨"Eve", none, "e@ex.io", none, "hi", none⟩
    emptyStore (by decide)

/-- C6: payloads are validated against the fixed per-entity schemas before
any insert: an accepted quote request always carries a string `name` and a
syntactically valid `email` (and a payload of just those two fields is
accepted, the other fields being optional); an accepted contact message
additionally carries a string `message`, and without one it is rejected;
a rejected payload yields a 422 and neither touches the store nor
produces any effect. -/
theorem leads_validated (env : Env) (smtp : SmtpBehavior) (dbb : DbBehavior)
    (j : Doc) (s : Store) (nm em : String) :
    (parseQuoteRequest j = none →
      post_quote env smtp dbb j s = (s, [], .httpError 422 "validation error"))
    ∧ (∀ p, parseQuoteRequest j = some p →
        dictGet j "name" = some (.str p.name)
          ∧ dictGet j "email" = some (.str p.email)
          ∧ isValidEmail p.email = true)
    ∧ (parseContactMessage j = none →
      post_contact env smtp dbb j s = (s, [], .httpError 422 "validation error"))
    ∧ (∀ p, parseContactMessage j = some p →
        dictGet j "name" = some (.str p.name)
          ∧ dictGet j "email" = some (.str p.email)
          ∧ isValidEmail p.email = true
          ∧ dictGet j "message" = some (.str p.message))
    ∧ (parseQuoteRequest [("name", .str nm), ("email", .str em)]
        = if isValidEmail em then some ⟨nm, none, em, none, none, none⟩ else none)
    ∧ parseContactMessage [("name", .str nm), ("email", .str em)] = none := by
  refine ⟨?_, ?_, ?_, ?_, ?_, ?_⟩
  · intro h; simp [post_quote, h]
  · intro p hp
    unfold parseQuoteRequest at hp
    split at hp
    · next nm' em' hn he =>
      split at hp
      · split at hp
        · next hv co ph ms pr hco hph hms hpr =>
          injection hp with hp'
          subst hp'
          exact ⟨parseReqStr_inv j "name" nm' hn, parseReqStr_inv j "email" em' he, by assumption⟩
        · exact absurd hp (by simp)
      · exact absurd hp (by simp)
    · exact absurd hp (by simp)
  · intro h; simp [post_contact, h]
  · intro p hp
    unfold parseContactMessage at hp
    split at hp
    · next nm' em' ms' hn he hm =>
      split at hp
      · split at hp
        · next hv co ph it hco hph hit =>
          injection hp with hp'
          subst hp'
          exact ⟨parseReqStr_inv j "name" nm' hn, parseReqStr_inv j "email" em' he,
            by assumption, parseReqStr_inv j "message" ms' hm⟩
        · exact absurd hp (by simp)
      · exact absurd hp (by simp)
    · exact absurd hp (by simp)
  · rfl
  · rfl

/-- C6, witness: a two-field quote payload is accepted, the same payload
is rejected as a contact message, and a nameless payload is rejected with
nothing persisted. -/
theorem leads_validated_witness :
    parseQuoteRequest [("name", Value.str "N"), ("email", Value.str "a@b.c")]
        = some ⟨"N", none, "a@b.c", none, none, none⟩
    ∧ parseContactMessage [("name", Value.str "N"), ("email", Value.str "a@b.c")] = none
    ∧ post_quote ⟨none, none, none, none, none, none⟩ .delivers .avail
        [("email", Value.str "a@b.c")] emptyStore
        = (emptyStore, [], .httpError 422 "validation error") := by
  have h := leads_validated ⟨none, none, none, none, none, none⟩ .delivers .avail
    [("email", Value.str "a@b.c")] emptyStore "N" "a@b.c"
  refine ⟨?_, h.2.2.2.2.2, h.1 rfl⟩
  rw [h.2.2.2.2.1]
  rfl

end Spec2Proof
